import Mathlib

set_option maxHeartbeats 1000000

/-!
Verification of the graphbot tree serializer (`src/server.py`, `src/main.py`).

The serializer walks a parsed wikitext tree (mwparserfromhell nodes) and
converts it into a JSON-compatible structure.  We embed the node data model
of §3 of the specification (the parser library is an external collaborator,
so node shapes follow the spec's data model: every node stores its verbatim
source span `text`), the serializer `convert_node` / `convert_wikicode`
exactly as written in `src/server.py`, the derived filter views, and the
service adapter response shape.
-/

/-- JSON-compatible values, the serializer's output type (Python dicts,
lists, strings, ints, bools and None as produced by `server.py`). -/
inductive JValue where
  | null : JValue
  | bool (b : Bool) : JValue
  | num (n : Int) : JValue
  | str (s : String) : JValue
  | arr (xs : List JValue) : JValue
  | obj (fields : List (String × JValue)) : JValue
deriving Repr

/-- Syntax nodes of the external parser, per §3 of the specification: a
closed set of variants, each storing its exact verbatim source span `text`
(in the Python library this is `str(node)`).  Sub-tree valued fields are
node lists (a `Wikicode` is an ordered sequence of nodes).  Scalar fields
follow the §3 table: `Parameter.name`/`Parameter.value` are raw strings,
`Tag.tag`, `Tag.closing_tag` and the wiki-markup shorthands are optional
strings, paddings are strings, flags are booleans. -/
inductive Node where
  | Attribute (text : String) (name : List Node) (pad_after_eq : String)
      (pad_before_eq : String) (pad_first : String) (quotes : Option String)
      (value : Option (List Node)) : Node
  | Parameter (text : String) (name : String) (showkey : Bool)
      (value : Option String) : Node
  | Argument (text : String) (name : List Node) (default : Option (List Node)) : Node
  | Comment (text : String) (contents : String) : Node
  | ExternalLink (text : String) (brackets : Bool) (title : Option (List Node))
      (url : List Node) : Node
  | Heading (text : String) (level : Nat) (title : List Node) : Node
  | HTMLEntity (text : String) (hex_char : String) (hexadecimal : Bool)
      (named : Bool) (value : String) : Node
  | Tag (text : String) (attributes : List Node) (closing_tag : Option String)
      (closing_wiki_markup : Option String) (contents : List Node)
      (implicit : Bool) (invalid : Bool) (padding : String) (self_closing : Bool)
      (tag : Option String) (wiki_markup : Option String)
      (wiki_style_separator : Option String) : Node
  | Template (text : String) (name : List Node) (params : List Node) : Node
  | Text (text : String) (value : String) : Node
  | Wikilink (text : String) (txt : Option (List Node)) (title : List Node) : Node
deriving Repr

/-- A tree (Wikicode) is an ordered sequence of syntax nodes (§3). -/
abbrev Wikicode := List Node

/-- Verbatim source span of a node: the stored `text` attribute
(`str(node)` in the library). -/
def strN : Node → String
  | .Attribute text _ _ _ _ _ _ => text
  | .Parameter text _ _ _ => text
  | .Argument text _ _ => text
  | .Comment text _ => text
  | .ExternalLink text _ _ _ => text
  | .Heading text _ _ => text
  | .HTMLEntity text _ _ _ _ => text
  | .Tag text _ _ _ _ _ _ _ _ _ _ _ => text
  | .Template text _ _ => text
  | .Text text _ => text
  | .Wikilink text _ _ => text

/-- Verbatim span of a tree.  Modelled from the spec: §3's invariant and
§4.2 state a tree's span is the concatenation, in document order, of its
direct children's spans (`Wikicode.__str__` joins `str` of its nodes in
the external library). -/
def strW (w : Wikicode) : String := String.join (w.map strN)

/-- Predicate for the `filter_headings` query. -/
def isHeading : Node → Bool
  | .Heading _ _ _ => true
  | _ => false

/-- Predicate for the `filter_templates` query. -/
def isTemplate : Node → Bool
  | .Template _ _ _ => true
  | _ => false

/-- Predicate for the `filter_tags` query. -/
def isTag : Node → Bool
  | .Tag _ _ _ _ _ _ _ _ _ _ _ _ => true
  | _ => false

mutual

/-- Modelled from the spec: the full-subtree document-order traversal
underlying the Filter Layer (§4.3) of the external parser library
(`Wikicode.ifilter` with `recursive=True`): each node is visited before
its sub-trees, and sub-trees are visited in source order. -/
def traverseN : Node → List Node
  | n@(.Attribute _ name _ _ _ _ value) => n :: (traverseW name ++ traverseO value)
  | n@(.Parameter _ _ _ _) => [n]
  | n@(.Argument _ name default) => n :: (traverseW name ++ traverseO default)
  | n@(.Comment _ _) => [n]
  | n@(.ExternalLink _ _ title url) => n :: (traverseW url ++ traverseO title)
  | n@(.Heading _ _ title) => n :: traverseW title
  | n@(.HTMLEntity _ _ _ _ _) => [n]
  | n@(.Tag _ attributes _ _ contents _ _ _ _ _ _ _) =>
      n :: (traverseW attributes ++ traverseW contents)
  | n@(.Template _ name params) => n :: (traverseW name ++ traverseW params)
  | n@(.Text _ _) => [n]
  | n@(.Wikilink _ txt title) => n :: (traverseW title ++ traverseO txt)

/-- Traversal of a tree: each child in order, pre-order. -/
def traverseW : Wikicode → List Node
  | [] => []
  | n :: ns => traverseN n ++ traverseW ns

/-- Traversal of an optional sub-tree. -/
def traverseO : Option Wikicode → List Node
  | none => []
  | some w => traverseW w

end

/-- Modelled from the spec: `wikitext.filter_headings()` — full subtree,
document order (§4.3). -/
def filter_headings (w : Wikicode) : List Node := (traverseW w).filter isHeading

/-- Modelled from the spec: `wikitext.filter_templates()` — full subtree,
document order (§4.3). -/
def filter_templates (w : Wikicode) : List Node := (traverseW w).filter isTemplate

/-- Modelled from the spec: `wikitext.filter_tags()` — full subtree,
document order (§4.3). -/
def filter_tags (w : Wikicode) : List Node := (traverseW w).filter isTag

/-- Every node reached by the full-subtree traversal of a node is at most
as large as that node (equality only for the node itself). -/
theorem sizeOf_mem_traverseN :
    ∀ (n : Node), ∀ m ∈ traverseN n, sizeOf m ≤ sizeOf n := by
  apply traverseN.induct
    (fun n => ∀ m ∈ traverseN n, sizeOf m ≤ sizeOf n)
    (fun o => ∀ m ∈ traverseO o, sizeOf m < sizeOf o)
    (fun w => ∀ m ∈ traverseW w, sizeOf m < sizeOf w)
  · intro t nm pae pbe pf q v ihn ihv m hm
    simp only [traverseN, List.mem_cons, List.mem_append] at hm
    rcases hm with rfl | h | h
    · exact Nat.le_refl _
    · have := ihn m h; simp; omega
    · have := ihv m h; simp; omega
  · intro t nm sk v m hm
    simp only [traverseN, List.mem_singleton] at hm
    subst hm; exact Nat.le_refl _
  · intro t nm d ihn ihd m hm
    simp only [traverseN, List.mem_cons, List.mem_append] at hm
    rcases hm with rfl | h | h
    · exact Nat.le_refl _
    · have := ihn m h; simp; omega
    · have := ihd m h; simp; omega
  · intro t c m hm
    simp only [traverseN, List.mem_singleton] at hm
    subst hm; exact Nat.le_refl _
  · intro t b ti u ihu iht m hm
    simp only [traverseN, List.mem_cons, List.mem_append] at hm
    rcases hm with rfl | h | h
    · exact Nat.le_refl _
    · have := ihu m h; simp; omega
    · have := iht m h; simp; omega
  · intro t lv ti iht m hm
    simp only [traverseN, List.mem_cons] at hm
    rcases hm with rfl | h
    · exact Nat.le_refl _
    · have := iht m h; simp; omega
  · intro t hc hx nd v m hm
    simp only [traverseN, List.mem_singleton] at hm
    subst hm; exact Nat.le_refl _
  · intro t at_ ct cwm co impl inv pad sc tg wm wss iha ihc m hm
    simp only [traverseN, List.mem_cons, List.mem_append] at hm
    rcases hm with rfl | h | h
    · exact Nat.le_refl _
    · have := iha m h; simp; omega
    · have := ihc m h; simp; omega
  · intro t nm ps ihn ihp m hm
    simp only [traverseN, List.mem_cons, List.mem_append] at hm
    rcases hm with rfl | h | h
    · exact Nat.le_refl _
    · have := ihn m h; simp; omega
    · have := ihp m h; simp; omega
  · intro t v m hm
    simp only [traverseN, List.mem_singleton] at hm
    subst hm; exact Nat.le_refl _
  · intro t tx ti iht ihx m hm
    simp only [traverseN, List.mem_cons, List.mem_append] at hm
    rcases hm with rfl | h | h
    · exact Nat.le_refl _
    · have := iht m h; simp; omega
    · have := ihx m h; simp; omega
  · intro m hm
    simp [traverseW] at hm
  · intro n ns ih1 ih3 m hm
    simp only [traverseW, List.mem_append] at hm
    rcases hm with h | h
    · have := ih1 m h; simp; omega
    · have := ih3 m h; simp; omega
  · intro m hm
    simp [traverseO] at hm
  · intro w ih m hm
    simp only [traverseO] at hm
    have := ih m hm; simp; omega

/-- Every node reached by the traversal of a tree is strictly smaller
than the tree. -/
theorem sizeOf_mem_traverseW :
    ∀ (w : Wikicode), ∀ m ∈ traverseW w, sizeOf m < sizeOf w := by
  intro w
  induction w with
  | nil => intro m hm; simp [traverseW] at hm
  | cons n ns ih =>
    intro m hm
    simp only [traverseW, List.mem_append] at hm
    rcases hm with h | h
    · have := sizeOf_mem_traverseN n m h; simp; omega
    · have := ih m h; simp; omega

/-- Serialization of an optional raw string checked with `is not None`
(Python `x if x is not None else None`): `None` maps to null, any string
(even empty) is kept. -/
def optStr : Option String → JValue
  | some s => .str s
  | none => .null

/-- Serialization of an optional string checked by Python truthiness
(`str(x) if x else None`): `None` and the empty string both map to null. -/
def strIfTruthy : Option String → JValue
  | some s => if s = "" then .null else .str s
  | none => .null

mutual

/-- Embedding of `convert_node` (src/server.py lines 13-105): dispatch on
the node variant and build the output record, key for key in the source's
dict order.  Optional sub-trees guarded by `is not None` go through
`convert_opt`; the Wikilink display text is guarded by Python truthiness
(`convert_wikicode(node.text) if node.text else None`) and goes through
`convert_opt_truthy`; optional strings guarded by truthiness go through
`strIfTruthy`. -/
def convert_node : Node → JValue
  | .Attribute text _name pad_after_eq pad_before_eq pad_first quotes value =>
      .obj [("text", .str text), ("type", .str "Attribute"),
            ("pad_after_eq", .str pad_after_eq), ("pad_before_eq", .str pad_before_eq),
            ("pad_first", .str pad_first), ("quotes", optStr quotes),
            ("value", convert_opt value)]
  | .Parameter text name showkey value =>
      .obj [("text", .str text), ("name", .str name), ("type", .str "Parameter"),
            ("showkey", .bool showkey), ("value", optStr value)]
  | .Argument text name default =>
      .obj [("text", .str text), ("type", .str "Argument"),
            ("name", convert_wikicode name), ("default", convert_opt default)]
  | .Comment text contents =>
      .obj [("text", .str text), ("type", .str "Comment"), ("contents", .str contents)]
  | .ExternalLink text brackets title url =>
      .obj [("text", .str text), ("type", .str "ExternalLink"), ("brackets", .bool brackets),
            ("title", convert_opt title), ("url", convert_wikicode url)]
  | .Heading text level title =>
      .obj [("text", .str text), ("type", .str "Heading"), ("level", .num (Int.ofNat level)),
            ("title", convert_wikicode title)]
  | .HTMLEntity text hex_char hexadecimal named value =>
      .obj [("text", .str text), ("type", .str "HTMLEntity"), ("hex_char", .str hex_char),
            ("hexadecimal", .bool hexadecimal), ("named", .bool named), ("value", .str value)]
  | .Tag text attributes closing_tag closing_wiki_markup contents implicit invalid
        padding self_closing tag wiki_markup wiki_style_separator =>
      .obj [("text", .str text), ("type", .str "Tag"),
            ("attributes", .arr (attributes.attach.map fun a => convert_node a.1)),
            ("closing_tag", strIfTruthy closing_tag),
            ("closing_wiki_markup", strIfTruthy closing_wiki_markup),
            ("contents", convert_wikicode contents),
            ("implicit", .bool implicit), ("invalid", .bool invalid),
            ("padding", .str padding), ("self_closing", .bool self_closing),
            ("tag", strIfTruthy tag), ("wiki_markup", strIfTruthy wiki_markup),
            ("wiki_style_separator", strIfTruthy wiki_style_separator)]
  | .Template text name params =>
      .obj [("text", .str text), ("type", .str "Template"),
            ("name", convert_wikicode name),
            ("params", .arr (params.attach.map fun p => convert_node p.1))]
  | .Text text value =>
      .obj [("text", .str text), ("type", .str "Text"), ("value", .str value)]
  | .Wikilink text txt title =>
      .obj [("text", .str text), ("type", .str "Wikilink"),
            ("txt", convert_opt_truthy txt), ("title", convert_wikicode title)]
termination_by n => sizeOf n
decreasing_by
  all_goals first
    | (have h := List.sizeOf_lt_of_mem a.2; simp; omega)
    | (have h := List.sizeOf_lt_of_mem p.2; simp; omega)
    | (simp; omega)
    | simp

/-- `convert_wikicode(x) if x is not None else None`. -/
def convert_opt : Option Wikicode → JValue
  | some v => convert_wikicode v
  | none => .null
termination_by o => sizeOf o
decreasing_by
  all_goals simp

/-- `convert_wikicode(x) if x else None`: a Wikicode is falsy exactly when
its string rendering is empty (`StringMixIn.__len__` in the library). -/
def convert_opt_truthy : Option Wikicode → JValue
  | some v => if strW v = "" then .null else convert_wikicode v
  | none => .null
termination_by o => sizeOf o
decreasing_by
  all_goals simp

/-- Embedding of `convert_wikicode` (src/server.py lines 109-116): the
tree record with the three derived filter sequences, the child records in
document order, and the tree's verbatim text. -/
def convert_wikicode (w : Wikicode) : JValue :=
  .obj [("headings", .arr ((filter_headings w).attach.map fun hh => convert_node hh.1)),
        ("templates", .arr ((filter_templates w).attach.map fun tt => convert_node tt.1)),
        ("tags", .arr ((filter_tags w).attach.map fun gg => convert_node gg.1)),
        ("nodes", .arr (w.attach.map fun nn => convert_node nn.1)),
        ("text", .str (strW w))]
termination_by sizeOf w
decreasing_by
  all_goals first
    | (exact sizeOf_mem_traverseW _ _ (List.mem_of_mem_filter hh.2))
    | (exact sizeOf_mem_traverseW _ _ (List.mem_of_mem_filter tt.2))
    | (exact sizeOf_mem_traverseW _ _ (List.mem_of_mem_filter gg.2))
    | (exact List.sizeOf_lt_of_mem nn.2)
end

/-- Lookup in an association list of record fields (first match, as in a
Python dict whose literal has distinct keys). -/
def lookupFields : List (String × JValue) → String → Option JValue
  | [], _ => none
  | (k2, x) :: rest, k => if k2 = k then some x else lookupFields rest k

/-- Lookup of a field in a serialized record. -/
def jLookup (v : JValue) (k : String) : Option JValue :=
  match v with
  | .obj fs => lookupFields fs k
  | _ => none

/-- The keys of a serialized record, in insertion order. -/
def jKeys : JValue → List String
  | .obj fs => fs.map Prod.fst
  | _ => []

/-- String field of a record (empty string when absent or not a string). -/
def getStr (v : JValue) (k : String) : String :=
  match jLookup v k with
  | some (.str s) => s
  | _ => ""

/-- Array field of a record (empty when absent or not an array). -/
def getArr (v : JValue) (k : String) : List JValue :=
  match jLookup v k with
  | some (.arr xs) => xs
  | _ => []

/-- The tree record, with the attach-helpers rewritten to plain maps. -/
theorem convert_wikicode_eq (w : Wikicode) :
    convert_wikicode w =
      .obj [("headings", .arr ((filter_headings w).map convert_node)),
            ("templates", .arr ((filter_templates w).map convert_node)),
            ("tags", .arr ((filter_tags w).map convert_node)),
            ("nodes", .arr (w.map convert_node)),
            ("text", .str (strW w))] := by
  rw [convert_wikicode]
  simp [List.attach_map_val]

/-- The Tag record, with the attach-helper rewritten to a plain map. -/
theorem convert_node_Tag_eq (text : String) (attributes : List Node)
    (closing_tag closing_wiki_markup : Option String) (contents : List Node)
    (implicit invalid : Bool) (padding : String) (self_closing : Bool)
    (tag wiki_markup wiki_style_separator : Option String) :
    convert_node (.Tag text attributes closing_tag closing_wiki_markup contents
        implicit invalid padding self_closing tag wiki_markup wiki_style_separator) =
      .obj [("text", .str text), ("type", .str "Tag"),
            ("attributes", .arr (attributes.map convert_node)),
            ("closing_tag", strIfTruthy closing_tag),
            ("closing_wiki_markup", strIfTruthy closing_wiki_markup),
            ("contents", convert_wikicode contents),
            ("implicit", .bool implicit), ("invalid", .bool invalid),
            ("padding", .str padding), ("self_closing", .bool self_closing),
            ("tag", strIfTruthy tag), ("wiki_markup", strIfTruthy wiki_markup),
            ("wiki_style_separator", strIfTruthy wiki_style_separator)] := by
  rw [convert_node]
  simp [List.attach_map_val]

/-- The Template record, with the attach-helper rewritten to a plain map. -/
theorem convert_node_Template_eq (text : String) (name params : List Node) :
    convert_node (.Template text name params) =
      .obj [("text", .str text), ("type", .str "Template"),
            ("name", convert_wikicode name),
            ("params", .arr (params.map convert_node))] := by
  rw [convert_node]
  simp [List.attach_map_val]

/-- Lowercase hexadecimal digit. -/
def hexDigit (n : Nat) : Char :=
  if n < 10 then Char.ofNat (48 + n) else Char.ofNat (87 + n)

/-- A `\uXXXX` escape. -/
def uEscape4 (n : Nat) : String :=
  "\\u" ++ String.mk [hexDigit (n / 4096 % 16), hexDigit (n / 256 % 16),
                      hexDigit (n / 16 % 16), hexDigit (n % 16)]

/-- Model of the character escaping of Python `json.dumps` (stdlib,
external to the repository) with its default options (`ensure_ascii`):
short escapes for the JSON control characters, `\uXXXX` (with surrogate
pairs) for other control and non-ASCII characters. -/
def escapeChar (c : Char) : String :=
  if c = Char.ofNat 34 then "\\\""
  else if c = Char.ofNat 92 then "\\\\"
  else if c = Char.ofNat 10 then "\\n"
  else if c = Char.ofNat 9 then "\\t"
  else if c = Char.ofNat 13 then "\\r"
  else if c = Char.ofNat 8 then "\\b"
  else if c = Char.ofNat 12 then "\\f"
  else if c.toNat < 32 || c.toNat > 126 then
    if c.toNat ≥ 65536 then
      uEscape4 (55296 + (c.toNat - 65536) / 1024) ++ uEscape4 (56320 + (c.toNat - 65536) % 1024)
    else uEscape4 c.toNat
  else String.singleton c

/-- JSON string-body escaping. -/
def escapeString (s : String) : String := String.join (s.data.map escapeChar)

mutual

/-- Model of Python `json.dumps` (stdlib, external to the repository) with
default options: separators `", "` and `": "`, ASCII-escaped strings. -/
def jsonDumps : JValue → String
  | .null => "null"
  | .bool true => "true"
  | .bool false => "false"
  | .num n => toString n
  | .str s => "\"" ++ escapeString s ++ "\""
  | .arr xs => "[" ++ jsonDumpsList xs ++ "]"
  | .obj fs => "\x7b" ++ jsonDumpsFields fs ++ "\x7d"

/-- Comma-separated array elements. -/
def jsonDumpsList : List JValue → String
  | [] => ""
  | [x] => jsonDumps x
  | x :: y :: rest => jsonDumps x ++ ", " ++ jsonDumpsList (y :: rest)

/-- Comma-separated object members. -/
def jsonDumpsFields : List (String × JValue) → String
  | [] => ""
  | [(k, x)] => "\"" ++ escapeString k ++ "\": " ++ jsonDumps x
  | (k, x) :: y :: rest =>
      "\"" ++ escapeString k ++ "\": " ++ jsonDumps x ++ ", " ++ jsonDumpsFields (y :: rest)

end

/-- Embedding of the exposed procedure `parser` (src/server.py lines
135-140, registered as `parse`): the parse step belongs to the external
parser (§6), passed here as a function, and the elapsed wall-clock time is
an external measurement, passed through; the body returns the dict
`{"parsed": json.dumps(output), "elapsed": t2 - t1}`. -/
def parserResponse (parse : String → Wikicode) (text : String) (elapsed : JValue) : JValue :=
  .obj [("parsed", .str (jsonDumps (convert_wikicode (parse text)))),
        ("elapsed", elapsed)]

/-- A value reaching `convert_node`'s dynamic dispatch: either a node of
the closed variant set, or a node of a kind outside that set (the
`case _` fall-through of the Python `match`). -/
inductive NodeExt where
  | known (n : Node) : NodeExt
  | unknown (typeName : String) : NodeExt

/-- The full dynamic dispatch of `convert_node` including the fall-through
(src/server.py lines 106-107): a node whose kind is outside the closed set
raises `ValueError(f"Unsupported node type: {type(node)}")`; nodes of the
closed set serialize normally. -/
def convert_node_ext : NodeExt → Except String JValue
  | .known n => .ok (convert_node n)
  | .unknown typeName => .error ("Unsupported node type: " ++ typeName)

/-- Python whitespace, for `str.strip()` (ASCII subset). -/
def isPySpace (c : Char) : Bool :=
  c = Char.ofNat 32 || c = Char.ofNat 9 || c = Char.ofNat 10 ||
  c = Char.ofNat 13 || c = Char.ofNat 11 || c = Char.ofNat 12

/-- Model of Python `str.strip()` (stdlib, external to the repository):
drop leading and trailing whitespace. -/
def pyStrip (s : String) : String :=
  String.mk (((s.data.dropWhile isPySpace).reverse.dropWhile isPySpace).reverse)

/-- One entry of the stripped parameter dict of src/main.py line 15:
`str(param.name).strip(): str(param.value).strip()`. -/
def mainParamEntry : Node → Option (String × JValue)
  | .Parameter _ name _ value => some (pyStrip name, .str (pyStrip (value.getD "")))
  | _ => none

/-- Embedding of the record built per template by the module-level loop of
src/main.py (lines 12-17): this consumption layer outside the serializer
strips surrounding whitespace from name, parameters and wikitext. -/
def main_template_record : Node → JValue
  | .Template text name params =>
      .obj [("name", .str (pyStrip (strW name))),
            ("params", .obj (params.filterMap mainParamEntry)),
            ("wikitext", .str (pyStrip text))]
  | _ => .null

/-- Input nesting `k` tags: `deepNest k` is a Tag whose contents nest
`k - 1` further tags around a text leaf; used to probe for a depth bound. -/
def deepNest : Nat → Node
  | 0 => .Text "x" "x"
  | k + 1 => .Tag "" [] none none [deepNest k] false false "" false (some "t") none none

/-- The variant tag of a node, as serialized under the `type` key. -/
def variantName : Node → String
  | .Attribute .. => "Attribute"
  | .Parameter .. => "Parameter"
  | .Argument .. => "Argument"
  | .Comment .. => "Comment"
  | .ExternalLink .. => "ExternalLink"
  | .Heading .. => "Heading"
  | .HTMLEntity .. => "HTMLEntity"
  | .Tag .. => "Tag"
  | .Template .. => "Template"
  | .Text .. => "Text"
  | .Wikilink .. => "Wikilink"

/-- The record fields the specification documents for each variant: the
mandatory `type` and `text` (§4.2, §6) plus the variant-specific fields of
§3's table, under the serializer's key names (the Wikilink display text is
emitted under `txt`; the Tag row's closing-tag text and wiki-markup
shorthand texts are `closing_tag`, `closing_wiki_markup`, `wiki_markup`
and `wiki_style_separator`).  This definition follows the specification's
words, for comparison against the implementation. -/
def specFields : String → List String
  | "Attribute" =>
      ["type", "text", "name", "value", "pad_before_eq", "pad_after_eq", "pad_first", "quotes"]
  | "Parameter" => ["type", "text", "name", "value", "showkey"]
  | "Argument" => ["type", "text", "name", "default"]
  | "Comment" => ["type", "text", "contents"]
  | "ExternalLink" => ["type", "text", "url", "title", "brackets"]
  | "Heading" => ["type", "text", "level", "title"]
  | "HTMLEntity" => ["type", "text", "value", "named", "hexadecimal", "hex_char"]
  | "Tag" =>
      ["type", "text", "tag", "attributes", "contents", "closing_tag", "closing_wiki_markup",
       "self_closing", "implicit", "invalid", "padding", "wiki_markup", "wiki_style_separator"]
  | "Template" => ["type", "text", "name", "params"]
  | "Text" => ["type", "text", "value"]
  | "Wikilink" => ["type", "text", "title", "txt"]
  | _ => []

/-- The documented fields as amended by the observed implementation: the
Attribute record omits the attribute `name`. -/
def amendedFields (t : String) : List String :=
  if t = "Attribute" then (specFields t).erase "name" else specFields t

/-- Whether a JSON value is a string. -/
def jIsStr : JValue → Bool
  | .str _ => true
  | _ => false

/-- The `text` field of every serialized node record is the node's verbatim
source span, copied unchanged. -/
theorem getStr_convert_node_text (n : Node) : getStr (convert_node n) "text" = strN n := by
  cases n <;> simp [convert_node, convert_node_Tag_eq, convert_node_Template_eq,
    getStr, jLookup, lookupFields, strN]

/-- A node occurs in its own traversal. -/
theorem self_mem_traverseN (n : Node) : n ∈ traverseN n := by
  cases n <;> simp [traverseN]

/-- Traversal of a tree covers the traversal of each of its children. -/
theorem mem_traverseW_of_mem {w : Wikicode} {n m : Node}
    (h : n ∈ w) (hm : m ∈ traverseN n) : m ∈ traverseW w := by
  induction w with
  | nil => simp at h
  | cons a as ih =>
    rcases List.mem_cons.mp h with rfl | h2
    · exact List.mem_append_left _ hm
    · exact List.mem_append_right _ (ih h2)

/-- The `nodes` field of a tree record. -/
theorem cw_lookup_nodes (w : Wikicode) :
    getArr (convert_wikicode w) "nodes" = w.map convert_node := by
  simp [convert_wikicode_eq, getArr, jLookup, lookupFields]

/-- The `text` field of a tree record. -/
theorem cw_lookup_text (w : Wikicode) :
    getStr (convert_wikicode w) "text" = strW w := by
  simp [convert_wikicode_eq, getStr, jLookup, lookupFields]

/-- The `headings` field of a tree record. -/
theorem cw_lookup_headings (w : Wikicode) :
    jLookup (convert_wikicode w) "headings" =
      some (.arr ((filter_headings w).map convert_node)) := by
  simp [convert_wikicode_eq, jLookup, lookupFields]

/-- The `templates` field of a tree record. -/
theorem cw_lookup_templates (w : Wikicode) :
    jLookup (convert_wikicode w) "templates" =
      some (.arr ((filter_templates w).map convert_node)) := by
  simp [convert_wikicode_eq, jLookup, lookupFields]

/-- The `tags` field of a tree record. -/
theorem cw_lookup_tags (w : Wikicode) :
    jLookup (convert_wikicode w) "tags" =
      some (.arr ((filter_tags w).map convert_node)) := by
  simp [convert_wikicode_eq, jLookup, lookupFields]

/-- One step of nesting unfolds to a Tag node. -/
theorem deepNest_succ (k : Nat) :
    deepNest (k + 1) = .Tag "" [] none none [deepNest k] false false "" false
      (some "t") none none := by
  simp [deepNest]

/-- At every nesting depth the serializer produces an ordinary Tag record. -/
theorem deepNest_type (k : Nat) :
    jLookup (convert_node (deepNest (k + 1))) "type" = some (.str "Tag") := by
  simp [deepNest, convert_node_Tag_eq, jLookup, lookupFields]

/-- Claim C1 (counterexample): the serialized Attribute record does not
carry the attribute `name`, although the specification's §3 table
documents a name field for the Attribute variant; so `convert_node` does
not produce exactly the documented fields for every variant. -/
theorem c1_attribute_name_missing :
    (jKeys (convert_node (.Attribute " n=\"v\"" [.Text "n" "n"] "" "" " " (some "\"")
        (some [.Text "v" "v"])))).contains "name" = false
  ∧ (specFields "Attribute").contains "name" = true := by
  constructor
  · simp [convert_node, jKeys]
  · decide

/-- Claim C1 (amended): for every node variant of the closed set,
`convert_node` produces a record containing exactly the `type` tag, the
verbatim `text` and the variant-specific fields of the spec's table,
except that the Attribute record omits the attribute `name`. -/
theorem c1_record_fields (n : Node) :
    (jKeys (convert_node n)).Perm (amendedFields (variantName n)) := by
  cases n <;>
    simp [convert_node, convert_node_Tag_eq, convert_node_Template_eq, jKeys,
      variantName, amendedFields, specFields] <;>
    decide

/-- Claim C2 (counterexample): the response of the exposed `parse`
procedure has no `result` key at all; the structured value is carried as a
JSON-serialized string under the key `parsed` (shown in full for the empty
tree), not as a JSON object under `result`. -/
theorem c2_response_not_result_object :
    jLookup (parserResponse (fun _ => []) "" (.num 0)) "result" = none
  ∧ ((jLookup (parserResponse (fun _ => []) "" (.num 0)) "parsed").map jIsStr) = some true
  ∧ jsonDumps (convert_wikicode []) =
      "\x7b\"headings\": [], \"templates\": [], \"tags\": [], \"nodes\": [], \"text\": \"\"\x7d" := by
  refine ⟨?_, ?_, ?_⟩
  · simp [parserResponse, jLookup, lookupFields]
  · simp [parserResponse, jLookup, lookupFields, jIsStr]
  · simp [convert_wikicode_eq, filter_headings, filter_templates, filter_tags, traverseW,
      strW, jsonDumps, jsonDumpsFields, jsonDumpsList, escapeString, escapeChar, String.join]
    rfl

/-- Claim C2 (amended): the exposed remote procedure `parse` returns a
record with exactly the keys `parsed` and `elapsed`, where `parsed` holds
the JSON-serialized string of the structured output and `elapsed` carries
the measured time through. -/
theorem c2_response_shape (parse : String → Wikicode) (text : String) (elapsed : JValue) :
    jKeys (parserResponse parse text elapsed) = ["parsed", "elapsed"]
  ∧ jLookup (parserResponse parse text elapsed) "parsed" =
      some (.str (jsonDumps (convert_wikicode (parse text))))
  ∧ jLookup (parserResponse parse text elapsed) "elapsed" = some elapsed
  ∧ jLookup (parserResponse parse text elapsed) "result" = none := by
  refine ⟨rfl, ?_, ?_, ?_⟩ <;> simp [parserResponse, jLookup, lookupFields]

/-- Claim C3: a node whose variant is outside the closed set makes
`convert_node` fail fast with an error naming the unhandled kind
(`ValueError(f"Unsupported node type: ...")`); no record is ever produced
for it. -/
theorem c3_unknown_variant_fails (typeName : String) :
    convert_node_ext (.unknown typeName) = .error ("Unsupported node type: " ++ typeName)
  ∧ (convert_node_ext (.unknown typeName)).toOption = none := ⟨rfl, rfl⟩

/-- Claim C4: for every tree, `convert_wikicode` produces a record whose
`text` is the tree's verbatim span, whose `nodes` holds exactly one
serialized record per direct child in the input order, and which carries
the three derived sequences `headings`, `templates` and `tags`. -/
theorem c4_tree_record (w : Wikicode) :
    getStr (convert_wikicode w) "text" = strW w
  ∧ jLookup (convert_wikicode w) "nodes" = some (.arr (w.map convert_node))
  ∧ (getArr (convert_wikicode w) "nodes").length = w.length
  ∧ jLookup (convert_wikicode w) "headings" = some (.arr ((filter_headings w).map convert_node))
  ∧ jLookup (convert_wikicode w) "templates" = some (.arr ((filter_templates w).map convert_node))
  ∧ jLookup (convert_wikicode w) "tags" = some (.arr ((filter_tags w).map convert_node)) := by
  refine ⟨cw_lookup_text w, ?_, ?_, cw_lookup_headings w, cw_lookup_templates w, cw_lookup_tags w⟩
  · simp [convert_wikicode_eq, jLookup, lookupFields]
  · rw [cw_lookup_nodes]; simp

/-- Claim C5: the derived `templates` sequence of a serialized tree is the
serialization, in document order, of the full-subtree traversal filtered
to templates; in particular both a top-level Template child and a Template
nested inside an Argument's default sub-tree appear in it, at any depth. -/
theorem c5_filters_full_subtree (w : Wikicode) :
    jLookup (convert_wikicode w) "templates" =
      some (.arr (((traverseW w).filter isTemplate).map convert_node))
  ∧ (∀ t ∈ w, isTemplate t = true →
      convert_node t ∈ ((traverseW w).filter isTemplate).map convert_node)
  ∧ (∀ atext aname ad, Node.Argument atext aname (some ad) ∈ w →
      ∀ t ∈ traverseW ad, isTemplate t = true →
      convert_node t ∈ ((traverseW w).filter isTemplate).map convert_node) := by
  refine ⟨by simpa [filter_templates] using cw_lookup_templates w, ?_, ?_⟩
  · intro t ht htt
    exact List.mem_map_of_mem _
      (List.mem_filter.mpr ⟨mem_traverseW_of_mem ht (self_mem_traverseN t), htt⟩)
  · intro atext aname ad ha t htt htpl
    have h1 : t ∈ traverseN (Node.Argument atext aname (some ad)) := by
      simp only [traverseN, traverseO, List.mem_cons, List.mem_append]
      exact Or.inr (Or.inr htt)
    exact List.mem_map_of_mem _
      (List.mem_filter.mpr ⟨mem_traverseW_of_mem ha h1, htpl⟩)

/-- Claim C5 (witness): a concrete two-template tree, one template nested
inside an Argument's default value — both serialized templates are members
of the derived sequence. -/
theorem c5_filters_full_subtree_witness :
    convert_node (.Template "{{b}}" [.Text "b" "b"] []) ∈
      ((traverseW [Node.Template "{{a}}" [.Text "a" "a"] [],
        Node.Argument "{{{x|{{b}}}}}" [.Text "x" "x"]
          (some [.Template "{{b}}" [.Text "b" "b"] []])]).filter isTemplate).map convert_node
  ∧ convert_node (.Template "{{a}}" [.Text "a" "a"] []) ∈
      ((traverseW [Node.Template "{{a}}" [.Text "a" "a"] [],
        Node.Argument "{{{x|{{b}}}}}" [.Text "x" "x"]
          (some [.Template "{{b}}" [.Text "b" "b"] []])]).filter isTemplate).map convert_node := by
  constructor
  · exact (c5_filters_full_subtree _).2.2 "{{{x|{{b}}}}}" [.Text "x" "x"]
      [.Template "{{b}}" [.Text "b" "b"] []]
      (by simp) (.Template "{{b}}" [.Text "b" "b"] []) (by simp [traverseW, traverseN]) rfl
  · exact (c5_filters_full_subtree _).2.1 _ (by simp) rfl

/-- Claim C6: concatenating, in document order, the `text` fields of the
serialized records of a tree's direct children reproduces the serialized
tree's own `text` field. -/
theorem c6_roundtrip (w : Wikicode) :
    String.join ((getArr (convert_wikicode w) "nodes").map (fun v => getStr v "text")) =
      getStr (convert_wikicode w) "text" := by
  rw [cw_lookup_nodes, cw_lookup_text, List.map_map]
  simp only [Function.comp_def]
  rw [List.map_congr_left (fun n _ => getStr_convert_node_text n)]
  rfl

/-- Claim C7: the serializer preserves raw text verbatim — the `text`
field of every serialized record is the node's exact source span, and the
scalar text/value fields (Text value, Comment contents, Parameter name)
are copied as-is with no stripping or normalization; trimming happens only
at the consumption layer outside the serializer (src/main.py). -/
theorem c7_verbatim_text :
    (∀ n : Node, getStr (convert_node n) "text" = strN n)
  ∧ (∀ t v, getStr (convert_node (.Text t v)) "value" = v)
  ∧ (∀ t c, getStr (convert_node (.Comment t c)) "contents" = c)
  ∧ (∀ t nm sk v, getStr (convert_node (.Parameter t nm sk v)) "name" = nm)
  ∧ (∀ t nm params, getStr (main_template_record (.Template t nm params)) "wikitext" =
      pyStrip t) := by
  refine ⟨getStr_convert_node_text, ?_, ?_, ?_, ?_⟩
  · intro t v; simp [convert_node, getStr, jLookup, lookupFields]
  · intro t c; simp [convert_node, getStr, jLookup, lookupFields]
  · intro t nm sk v; simp [convert_node, getStr, jLookup, lookupFields]
  · intro t nm params; simp [main_template_record, getStr, jLookup, lookupFields]

/-- Claim C8 (counterexample): an input nesting 10,000 tags is serialized
as an ordinary Tag record and the request produces the normal successful
response shape — there is no configured depth bound and no `ResourceError`
in the code (in the abstract model the recursive walk succeeds at any
depth). -/
theorem c8_deep_input_still_serialized :
    jLookup (convert_node (deepNest 10000)) "type" = some (.str "Tag")
  ∧ jKeys (parserResponse (fun _ => [deepNest 10000]) "" (.num 0)) = ["parsed", "elapsed"] := by
  refine ⟨?_, rfl⟩
  rw [show (10000 : Nat) = 9999 + 1 from rfl]
  exact deepNest_type 9999

/-- Claim C8 (amended): the serializer imposes no maximum traversal depth
and defines no `ResourceError`; at every nesting depth the recursive walk
serializes the input to an ordinary Tag record and the request returns the
normal response shape. -/
theorem c8_no_depth_bound (k : Nat) :
    jLookup (convert_node (deepNest (k + 1))) "type" = some (.str "Tag")
  ∧ jKeys (parserResponse (fun _ => [deepNest k]) "" (.num 0)) = ["parsed", "elapsed"] := by
  exact ⟨deepNest_type k, rfl⟩

/-- Claim C9: the serializer is pure and deterministic — it is embedded as
a mathematical function (the Python body only constructs dicts and lists
and never assigns to the tree), so serializing the same tree twice yields
structurally equal output and the serializer itself is a single,
unchanging function value. -/
theorem c9_pure_deterministic (w : Wikicode) :
    convert_wikicode w = convert_wikicode w ∧ convert_node = convert_node := ⟨rfl, rfl⟩

/-- Claim C10: optional fields are nulled by Python truthiness, not by
absence — a Tag whose `closing_tag`, `closing_wiki_markup`, `wiki_markup`
or `wiki_style_separator` is present but equal to the empty string
serializes that field as null (not as the empty string), and a Wikilink
whose display-text sub-tree is present but renders empty serializes its
`txt` field as null. -/
theorem c10_falsy_optionals_null :
    (∀ text attrs contents impl inv pad sc tg,
        jLookup (convert_node (.Tag text attrs (some "") (some "") contents impl inv pad sc
          tg (some "") (some ""))) "closing_tag" = some .null
      ∧ jLookup (convert_node (.Tag text attrs (some "") (some "") contents impl inv pad sc
          tg (some "") (some ""))) "closing_wiki_markup" = some .null
      ∧ jLookup (convert_node (.Tag text attrs (some "") (some "") contents impl inv pad sc
          tg (some "") (some ""))) "wiki_markup" = some .null
      ∧ jLookup (convert_node (.Tag text attrs (some "") (some "") contents impl inv pad sc
          tg (some "") (some ""))) "wiki_style_separator" = some .null)
  ∧ (∀ t d title, strW d = "" →
      jLookup (convert_node (.Wikilink t (some d) title)) "txt" = some .null) := by
  constructor
  · intro text attrs contents impl inv pad sc tg
    refine ⟨?_, ?_, ?_, ?_⟩ <;>
      simp [convert_node_Tag_eq, strIfTruthy, jLookup, lookupFields]
  · intro t d title h
    simp [convert_node, convert_opt_truthy, h, jLookup, lookupFields]

/-- Claim C10 (witness): a concrete Tag with empty-string optionals and a
concrete Wikilink with a present-but-empty display sub-tree. -/
theorem c10_falsy_optionals_null_witness :
    jLookup (convert_node (.Tag "<x>" [] (some "") (some "") [] false false "" false
      (some "x") (some "") (some ""))) "closing_tag" = some .null
  ∧ jLookup (convert_node (.Wikilink "[[Foo|]]" (some []) [.Text "Foo" "Foo"])) "txt" =
      some .null := by
  constructor
  · exact (c10_falsy_optionals_null.1 "<x>" [] [] false false "" false (some "x")).1
  · exact c10_falsy_optionals_null.2 "[[Foo|]]" [] [.Text "Foo" "Foo"] rfl
